import Mathlib

/-!
Verification development for the BioLens consultation engine
(`frontend/lib/consultation-engine.ts`).

Strings are modelled as `List Char`.  JavaScript's global `String.replace`
with an empty replacement scans the input left to right, removes each
non-overlapping match and continues scanning after the removed match; the
removal functions below implement exactly that scan for each of the concrete
patterns used by the source.  Functions that consume a variable number of
characters per step take a fuel argument (initialised to the input length)
so that every definition is structurally recursive and kernel-evaluable.
Rational constants are written with `mkRat` (e.g. `mkRat 4 5` for `0.8`)
because decimal `OfScientific` literals do not reduce in this toolchain.
-/

namespace BioLens

/-- Coerce a string literal to the `List Char` text model. -/
def cs (s : String) : List Char := s.data

/-- `text.toLowerCase()`. -/
def lowerStr (l : List Char) : List Char := l.map Char.toLower

/-- JavaScript `\s` for the ASCII range: space, tab, newline, carriage
return, vertical tab, form feed. -/
def jsWs (c : Char) : Bool :=
  c = ' ' || c = '\t' || c = '\n' || c = '\r' || c = '\x0b' || c = '\x0c'

/-- JavaScript `\w`: ASCII letters, digits and underscore. -/
def isWordChar (c : Char) : Bool := c.isAlphanum || c = '_'

/-- `pat` is a prefix of `l` (character-exact). -/
def startsWithL : List Char → List Char → Bool
  | [], _ => true
  | _ :: _, [] => false
  | p :: ps, c :: cstr => p == c && startsWithL ps cstr

/-- `pat` (given lowercase) is a case-insensitive prefix of `l`. -/
def startsWithCI (pat : List Char) (l : List Char) : Bool :=
  startsWithL pat (lowerStr (l.take pat.length))

/-- `hay.includes(pat)`: `pat` occurs contiguously in the haystack. -/
def containsSub (pat : List Char) : List Char → Bool
  | [] => pat.isEmpty
  | c :: cstr => startsWithL pat (c :: cstr) || containsSub pat cstr

/-- `text.trim()` (leading part). -/
def trimL (l : List Char) : List Char := l.dropWhile jsWs

/-- `text.trim()` (trailing part). -/
def trimR (l : List Char) : List Char := (l.reverse.dropWhile jsWs).reverse

/-- `text.trim()`. -/
def jsTrim (l : List Char) : List Char := trimL (trimR l)

/-- `replace(/\s+/g, ' ')`: each maximal whitespace run becomes one space.
The flag records whether the previous character was part of a run already
replaced. -/
def collapseAux : Bool → List Char → List Char
  | _, [] => []
  | prevWs, c :: cstr =>
    if jsWs c then
      if prevWs then collapseAux true cstr else ' ' :: collapseAux true cstr
    else c :: collapseAux false cstr

/-- `symptoms.trim().replace(/\s+/g, ' ')` — the whitespace-normalisation
step of the sanitizer. -/
def normalizeWs (l : List Char) : List Char := collapseAux false (jsTrim l)

/-- The first character, if any, is not whitespace. -/
def headNotWs : List Char → Bool
  | [] => true
  | c :: _ => !jsWs c

/-- Every whitespace character is a plain space and no two whitespace
characters are adjacent: the normal form produced by whitespace collapse. -/
def spacedOK : List Char → Bool
  | [] => true
  | [c] => !jsWs c || c = ' '
  | c :: d :: t => (!jsWs c || c = ' ') && !(jsWs c && jsWs d) && spacedOK (d :: t)

/-- One global case-insensitive literal removal, e.g. `replace(/javascript:/gi, '')`.
The pattern is `p :: ps` (nonempty, lowercase).  Fuel-driven so the
definition is structural; fuel `l.length` always suffices. -/
def removeLitF (p : Char) (ps : List Char) : Nat → List Char → List Char
  | 0, l => l
  | _ + 1, [] => []
  | fuel + 1, c :: cstr =>
    if startsWithCI (p :: ps) (c :: cstr) then
      removeLitF p ps fuel ((c :: cstr).drop (ps.length + 1))
    else c :: removeLitF p ps fuel cstr

/-- Global removal of the case-insensitive literal `pat` (taken lowercase). -/
def removeLit (pat : String) (l : List Char) : List Char :=
  match pat.data with
  | [] => l
  | p :: ps => removeLitF p ps l.length l

/-- `replace(/<[^>]*>/g, '')`: at each `<`, a match runs to the first later
`>` (the greedy `[^>]*` cannot cross one); with no later `>` there is no
match at that position. -/
def removeHtmlF : Nat → List Char → List Char
  | 0, l => l
  | _ + 1, [] => []
  | fuel + 1, c :: cstr =>
    if c = '<' then
      match cstr.dropWhile (fun d => d != '>') with
      | [] => c :: removeHtmlF fuel cstr
      | _ :: rest => removeHtmlF fuel rest
    else c :: removeHtmlF fuel cstr

def removeHtml (l : List Char) : List Char := removeHtmlF l.length l

/-- Scan for the first case-insensitive occurrence of `p :: ps` and return
the suffix that follows it. -/
def dropThroughCI (p : Char) (ps : List Char) : List Char → Option (List Char)
  | [] => none
  | c :: cstr =>
    if startsWithCI (p :: ps) (c :: cstr) then some ((c :: cstr).drop (ps.length + 1))
    else dropThroughCI p ps cstr

/-- `replace(/<script\b[^<]*(?:(?!<\/script>)<[^<]*)*<\/script>/gi, '')`:
a match starts at a case-insensitive `<script` followed by a non-word
character (the `\b`), and runs to the end of the first later
case-insensitive `</script>`; with no closer there is no match at that
position. -/
def removeScriptF : Nat → List Char → List Char
  | 0, l => l
  | _ + 1, [] => []
  | fuel + 1, c :: cstr =>
    if startsWithCI (cs "<script") (c :: cstr)
        && (match (c :: cstr).drop 7 with
            | [] => true
            | d :: _ => !isWordChar d) then
      match dropThroughCI '<' (cs "/script>") ((c :: cstr).drop 7) with
      | some rest => removeScriptF fuel rest
      | none => c :: removeScriptF fuel cstr
    else c :: removeScriptF fuel cstr

def removeScript (l : List Char) : List Char := removeScriptF l.length l

/-- `replace(/on\w+\s*=/gi, '')`: `on` (any case), then one or more word
characters, optional whitespace, then `=`. -/
def removeEvtF : Nat → List Char → List Char
  | 0, l => l
  | _ + 1, [] => []
  | fuel + 1, c :: cstr =>
    if c = 'o' || c = 'O' then
      match cstr with
      | [] => [c]
      | d :: rest =>
        if d = 'n' || d = 'N' then
          let wrun := rest.takeWhile isWordChar
          if wrun.isEmpty then c :: removeEvtF fuel cstr
          else
            match (rest.drop wrun.length).dropWhile jsWs with
            | '=' :: tail => removeEvtF fuel tail
            | _ => c :: removeEvtF fuel cstr
        else c :: removeEvtF fuel cstr
    else c :: removeEvtF fuel cstr

def removeEvt (l : List Char) : List Char := removeEvtF l.length l

/-- The `harmfulPatterns` removals of `sanitizeSymptoms`, applied in source
order: script tags, HTML tags, `javascript:`, `data:`, `vbscript:`, inline
event handlers. -/
def removeHarmful (l : List Char) : List Char :=
  removeEvt (removeLit "vbscript:" (removeLit "data:" (removeLit "javascript:"
    (removeHtml (removeScript l)))))

/-- `ConsultationEngine.sanitizeSymptoms`: whitespace normalisation, harmful
pattern removal, truncation at 2000 characters with a `...` marker. -/
def sanitizeSymptoms (symptoms : List Char) : List Char :=
  let sanitized := removeHarmful (normalizeWs symptoms)
  if sanitized.length > 2000 then sanitized.take 2000 ++ cs "..." else sanitized

/-! ## Data model (`api-client.ts`, `consultation-engine.ts` interfaces) -/

inductive Risk
  | low
  | moderate
  | high
deriving DecidableEq, Repr

inductive Severity
  | mild
  | moderate
  | severe
deriving DecidableEq, Repr

inductive Urgency
  | immediate
  | within_week
  | routine
  | monitor
deriving DecidableEq, Repr

structure DetectedCondition where
  condition : List Char
  confidence : ℚ
  severity : Severity
  category : List Char
  requiresAttention : Bool
  description : List Char
deriving DecidableEq, Repr

/-- Placeholder used to model the partial array access `predictions[0]`; it
is only reached when the predictions list is empty, which input validation
rules out on every path that uses it. -/
def defaultCondition : DetectedCondition :=
  ⟨[], 0, Severity.mild, [], false, []⟩

structure ProcessingInfo where
  imageProcessed : Bool
  symptomsIncluded : Bool
  modelUsed : List Char
  processingTime : Nat
deriving DecidableEq, Repr

structure AnalysisResult where
  predictions : List DetectedCondition
  topPrediction : List Char
  overallConfidence : ℚ
  riskLevel : Risk
  recommendations : List (List Char)
  processingInfo : ProcessingInfo
deriving DecidableEq, Repr

/-- `ConsultationInput`.  The TypeScript interface declares `analysisResult`
non-null, so it is modelled as a plain field; the timestamp is `Option`
because validation checks its presence. -/
structure ConsultationInput where
  analysisResult : AnalysisResult
  symptoms : List Char
  sessionId : List Char
  timestamp : Option Nat
deriving DecidableEq, Repr

inductive ContactType
  | emergency
  | urgent_care
  | dermatologist
deriving DecidableEq, Repr

structure EmergencyContact where
  type : ContactType
  name : List Char
  phone : List Char
  description : List Char
deriving DecidableEq, Repr

structure Consultation where
  conditionAssessment : List Char
  symptomCorrelation : List Char
  recommendations : List (List Char)
  urgencyLevel : Urgency
  educationalInfo : List Char
  medicalDisclaimer : List Char
deriving DecidableEq, Repr

structure RespMetadata where
  modelUsed : List Char
  processingTime : Nat
  confidenceScore : ℚ
  fallbackUsed : Bool
  safetyValidated : Bool
deriving DecidableEq, Repr

structure ConsultationResponse where
  consultation : Consultation
  metadata : RespMetadata
  emergencyContacts : Option (List EmergencyContact)
deriving DecidableEq, Repr

structure ValidationResult where
  valid : Bool
  errors : List (List Char)
  warnings : List (List Char)
deriving DecidableEq, Repr

structure RiskLevel where
  level : Risk
  factors : List (List Char)
  requiresUrgentCare : Bool
deriving DecidableEq, Repr

/-- An error value as the engine observes it: message plus the optional
`status` and `retryAfter` fields the handlers read. -/
structure ErrInfo where
  message : List Char
  status : Option Nat
  retryAfter : Option Nat
deriving DecidableEq, Repr

/-- The AI client's reply to `sendConsultationRequest`. -/
structure GeminiResp where
  success : Bool
  content : List Char
  error : Option (List Char)
  modelUsed : Option (List Char)
  processingTime : Option Nat
deriving DecidableEq, Repr

inductive ErrorCategory
  | network
  | authentication
  | rate_limit
  | service_unavailable
  | unknown
deriving DecidableEq, Repr

/-! ## Circuit breaker (`CircuitBreaker`, lines 59-111) -/

inductive CBMode
  | closed
  | opened
  | halfOpen
deriving DecidableEq, Repr

structure CBState where
  failureCount : Nat
  lastFailureTime : Nat
  mode : CBMode
deriving DecidableEq, Repr

def failureThreshold : Nat := 5

def recoveryTimeoutMs : Nat := 60000

/-- Initial breaker state: `closed`, counter 0.  `reset()` also produces
exactly this state. -/
def cbInit : CBState := ⟨0, 0, CBMode.closed⟩

/-- `CircuitBreaker.onSuccess`. -/
def cbOnSuccess (s : CBState) : CBState :=
  { s with failureCount := 0, mode := CBMode.closed }

/-- `CircuitBreaker.onFailure`: increment, stamp the failure time, open when
the counter reaches the threshold. -/
def cbOnFailure (now : Nat) (s : CBState) : CBState :=
  let n := s.failureCount + 1
  { failureCount := n
    lastFailureTime := now
    mode := if failureThreshold ≤ n then CBMode.opened else s.mode }

/-- The admission check at the top of `CircuitBreaker.execute`: in `open`,
move to `half-open` when the recovery timeout has elapsed, otherwise reject
(`none`) without invoking the wrapped operation. -/
def cbGate (now : Nat) (s : CBState) : Option CBState :=
  match s.mode with
  | CBMode.opened =>
    if recoveryTimeoutMs < now - s.lastFailureTime then
      some { s with mode := CBMode.halfOpen }
    else none
  | _ => some s

structure CBExec where
  invoked : Bool
  rejected : Bool
  state : CBState
deriving DecidableEq, Repr

/-- One `CircuitBreaker.execute` call, with the wrapped operation's outcome
supplied as `opSucceeds`. -/
def cbExecute (now : Nat) (opSucceeds : Bool) (s : CBState) : CBExec :=
  match cbGate now s with
  | none => ⟨false, true, s⟩
  | some s1 =>
    if opSucceeds then ⟨true, false, cbOnSuccess s1⟩
    else ⟨true, false, cbOnFailure now s1⟩

/-- Breaker states reachable from the initial state through `execute` calls
(and explicit resets, which reproduce the initial state). -/
inductive CBReach : CBState → Prop
  | init : CBReach cbInit
  | step (now : Nat) (op : Bool) {s : CBState} :
      CBReach s → CBReach (cbExecute now op s).state

/-! ## Input validation and risk assessment -/

def joinSep (sep : List Char) : List (List Char) → List Char
  | [] => []
  | [x] => x
  | x :: y :: rest => x ++ sep ++ joinSep sep (y :: rest)

/-- `ConsultationEngine.validateInput` (the `analysisResult` null-guard is
unrepresentable under the declared types and is omitted). -/
def validateInput (data : ConsultationInput) : ValidationResult :=
  let errors :=
    (if data.analysisResult.predictions.isEmpty then
      [cs "Analysis result must contain predictions"] else []) ++
    (if data.analysisResult.overallConfidence < 0 ∨
        1 < data.analysisResult.overallConfidence then
      [cs "Invalid confidence score"] else []) ++
    (if data.sessionId.isEmpty || (jsTrim data.sessionId).isEmpty then
      [cs "Session ID is required"] else []) ++
    (if data.timestamp.isNone then [cs "Valid timestamp is required"] else [])
  let warnings :=
    (if data.analysisResult.topPrediction.isEmpty then
      [cs "No top prediction available"] else []) ++
    (if 5000 < data.symptoms.length then
      [cs "Symptom description is very long and may be truncated"] else [])
  ⟨errors.isEmpty, errors, warnings⟩

def highRiskConditions : List (List Char) :=
  [cs "melanoma", cs "carcinoma", cs "cancer"]

/-- `ConsultationEngine.assessRiskLevel`. -/
def assessRiskLevel (analysisResult : AnalysisResult) : RiskLevel :=
  let topCondition := lowerStr analysisResult.topPrediction
  let requiresUrgentCare :=
    highRiskConditions.any (fun c => containsSub c topCondition)
  let attentionRequired :=
    analysisResult.predictions.any (fun p => p.requiresAttention)
  let factors :=
    (if requiresUrgentCare then [cs "Potential malignant condition detected"] else []) ++
    (if mkRat 4 5 < analysisResult.overallConfidence then
      [cs "High confidence prediction"] else []) ++
    (if attentionRequired then [cs "Condition requires medical attention"] else [])
  { level := if requiresUrgentCare then Risk.high else analysisResult.riskLevel
    factors := factors
    requiresUrgentCare := requiresUrgentCare }

/-! ## Error classification (`isRateLimitError`, `isAuthenticationError`,
`categorizeError`) -/

def isRateLimitError (e : ErrInfo) : Bool :=
  let m := lowerStr e.message
  containsSub (cs "rate limit") m || containsSub (cs "quota") m ||
    containsSub (cs "too many requests") m || e.status == some 429

def isAuthenticationError (e : ErrInfo) : Bool :=
  let m := lowerStr e.message
  containsSub (cs "authentication") m || containsSub (cs "api key") m ||
    containsSub (cs "unauthorized") m || e.status == some 401 ||
    e.status == some 403

def categorizeError (e : ErrInfo) : ErrorCategory :=
  let m := lowerStr e.message
  if isAuthenticationError e then ErrorCategory.authentication
  else if isRateLimitError e then ErrorCategory.rate_limit
  else if containsSub (cs "network") m || containsSub (cs "connection") m ||
      containsSub (cs "timeout") m then ErrorCategory.network
  else if containsSub (cs "service") m || containsSub (cs "unavailable") m ||
      containsSub (cs "server") m then ErrorCategory.service_unavailable
  else ErrorCategory.unknown

/-! ## Symptom processing and local generators -/

structure ProcessedSymptoms where
  keywords : List (List Char)
  severity : List Char
  duration : List Char
  location : List Char
deriving DecidableEq, Repr

def symptomKeywords : List (List Char) :=
  [cs "itch", cs "itchy", cs "scratch", cs "scratching",
   cs "pain", cs "painful", cs "hurt", cs "hurts",
   cs "burn", cs "burning", cs "sting", cs "stinging",
   cs "red", cs "redness", cs "inflamed", cs "swollen",
   cs "dry", cs "flaky", cs "scaly", cs "peeling",
   cs "bump", cs "bumps", cs "lump", cs "lumps",
   cs "rash", cs "spots", cs "patches", cs "lesion"]

/-- `ConsultationEngine.processSymptoms`. -/
def processSymptoms (symptoms : List Char) : ProcessedSymptoms :=
  if symptoms.isEmpty || (jsTrim symptoms).isEmpty then
    ⟨[], cs "unknown", cs "unknown", cs "unknown"⟩
  else
    let symptomsLower := lowerStr symptoms
    let keywords := symptomKeywords.filter (fun k => containsSub k symptomsLower)
    let severity :=
      if [cs "severe", cs "intense", cs "unbearable", cs "extreme", cs "very"].any
          (fun i => containsSub i symptomsLower) then cs "severe"
      else if [cs "moderate", cs "noticeable", cs "bothersome"].any
          (fun i => containsSub i symptomsLower) then cs "moderate"
      else cs "mild"
    let duration :=
      if containsSub (cs "day") symptomsLower || containsSub (cs "today") symptomsLower then
        cs "days"
      else if containsSub (cs "week") symptomsLower then cs "weeks"
      else if containsSub (cs "month") symptomsLower then cs "months"
      else if containsSub (cs "year") symptomsLower then cs "years"
      else cs "unknown"
    ⟨keywords, severity, duration, cs "skin"⟩

def severityStr : Severity → List Char
  | Severity.mild => cs "mild"
  | Severity.moderate => cs "moderate"
  | Severity.severe => cs "severe"

/-- `(q * 100).toFixed(1)`-style formatting, modelled as exact rational
rounding to one decimal (round half up; the inputs used are nonnegative). -/
def toFixed1 (q : ℚ) : List Char :=
  let n := (Int.floor (q * 10 + mkRat 1 2)).toNat
  cs (Nat.repr (n / 10)) ++ cs "." ++ cs (Nat.repr (n % 10))

/-- `${pred.condition} (${(pred.confidence * 100).toFixed(1)}%)`. -/
def condWithPct (p : DetectedCondition) : List Char :=
  p.condition ++ cs " (" ++ toFixed1 (p.confidence * 100) ++ cs "%)"

/-- `ConsultationEngine.generateFallbackAssessment`. -/
def generateFallbackAssessment (analysisResult : AnalysisResult) : List Char :=
  let topPrediction := analysisResult.predictions.headD defaultCondition
  let confidence := toFixed1 (analysisResult.overallConfidence * 100)
  cs "Based on the BiomedCLIP analysis, the most likely condition is **" ++
    topPrediction.condition ++ cs "** with " ++ confidence ++ cs "% confidence. " ++
  cs "This condition is classified as " ++ severityStr topPrediction.severity ++
    cs " severity in the " ++ topPrediction.category ++ cs " category. " ++
  (if topPrediction.requiresAttention then
    cs "This condition typically requires medical attention for proper evaluation and treatment. "
   else []) ++
  (if 1 < analysisResult.predictions.length then
    cs "Alternative possibilities include: " ++
      joinSep (cs ", ") (((analysisResult.predictions.drop 1).take 2).map condWithPct) ++
      cs ". "
   else [])

/-- `ConsultationEngine.generateEnhancedFallbackAssessment`. -/
def generateEnhancedFallbackAssessment (analysisResult : AnalysisResult)
    (errorCategory : ErrorCategory) : List Char :=
  let topPrediction := analysisResult.predictions.headD defaultCondition
  let confidence := toFixed1 (analysisResult.overallConfidence * 100)
  cs "**Enhanced Analysis Results** (AI consultation temporarily unavailable)\n\n" ++
  cs "Based on the BiomedCLIP analysis, the most likely condition is **" ++
    topPrediction.condition ++ cs "** with " ++ confidence ++ cs "% confidence. " ++
  cs "This condition is classified as " ++ severityStr topPrediction.severity ++
    cs " severity in the " ++ topPrediction.category ++ cs " category. " ++
  (if topPrediction.requiresAttention then
    cs "This condition typically requires medical attention for proper evaluation and treatment. "
   else []) ++
  (if mkRat 4 5 < analysisResult.overallConfidence then
    cs "The high confidence level suggests a strong match with the visual patterns. "
   else if analysisResult.overallConfidence < mkRat 1 2 then
    cs "The moderate confidence level indicates some uncertainty - professional evaluation is recommended. "
   else []) ++
  (if 1 < analysisResult.predictions.length then
    cs "Alternative possibilities to consider include: " ++
      joinSep (cs ", ") (((analysisResult.predictions.drop 1).take 2).map condWithPct) ++
      cs ". "
   else []) ++
  (if errorCategory = ErrorCategory.network ∨
      errorCategory = ErrorCategory.service_unavailable then
    cs "\n\n*Note: Advanced AI consultation is temporarily unavailable due to connectivity issues. This analysis is based on our enhanced local processing.*"
   else if errorCategory = ErrorCategory.rate_limit then
    cs "\n\n*Note: AI consultation service is experiencing high demand. This enhanced analysis provides comprehensive information based on visual patterns.*"
   else [])

/-- `ConsultationEngine.generateSymptomCorrelation`. -/
def generateSymptomCorrelation (symptoms : List Char)
    (analysisResult : AnalysisResult) : List Char :=
  if symptoms.isEmpty || (jsTrim symptoms).isEmpty then
    cs "No symptoms were provided for correlation analysis. Visual analysis was performed based solely on the image."
  else
    let processedSymptoms := processSymptoms symptoms
    let topCondition := analysisResult.predictions.headD defaultCondition
    let conditionLower := lowerStr topCondition.condition
    cs "Your reported symptoms have been analyzed in relation to the detected condition (" ++
      topCondition.condition ++ cs "). " ++
    (if !processedSymptoms.keywords.isEmpty then
      cs "Key symptoms mentioned include: " ++
        joinSep (cs ", ") processedSymptoms.keywords ++ cs ". "
     else []) ++
    (if containsSub (cs "eczema") conditionLower &&
        processedSymptoms.keywords.contains (cs "itch") then
      cs "The itching you described is consistent with eczema, which commonly causes intense itching. "
     else if containsSub (cs "psoriasis") conditionLower &&
        processedSymptoms.keywords.contains (cs "scaly") then
      cs "The scaling you mentioned aligns with psoriasis characteristics. "
     else if containsSub (cs "fungal") conditionLower &&
        processedSymptoms.keywords.contains (cs "itch") then
      cs "Itching is a common symptom of fungal infections. "
     else []) ++
    cs "This symptom information helps provide context for the visual analysis results."

/-- `ConsultationEngine.generateFallbackRecommendations` (the basic variant
used by the response parser; capped at 6). -/
def generateFallbackRecommendations (analysisResult : AnalysisResult)
    (_symptoms : List Char) : List (List Char) :=
  let topCondition := analysisResult.predictions.headD defaultCondition
  let conditionLower := lowerStr topCondition.condition
  let riskRecs :=
    if analysisResult.riskLevel = Risk.high then
      [cs "🚨 URGENT: Seek immediate medical attention from a dermatologist or healthcare provider",
       cs "Consider emergency care if symptoms worsen rapidly"]
    else if analysisResult.riskLevel = Risk.moderate then
      [cs "Schedule an appointment with a healthcare provider within 1-2 weeks",
       cs "Monitor the condition and seek immediate care if it worsens"]
    else
      [cs "Consider consulting a healthcare provider if symptoms persist or worsen"]
  let condRecs :=
    if containsSub (cs "eczema") conditionLower then
      [cs "Apply fragrance-free moisturizer regularly",
       cs "Avoid known triggers and use gentle, hypoallergenic products"]
    else if containsSub (cs "psoriasis") conditionLower then
      [cs "Keep skin moisturized and avoid harsh soaps",
       cs "Consider stress management as it can trigger flare-ups"]
    else if containsSub (cs "fungal") conditionLower then
      [cs "Keep the affected area clean and dry",
       cs "Consider over-the-counter antifungal treatments"]
    else if containsSub (cs "acne") conditionLower then
      [cs "Use gentle, non-comedogenic skincare products",
       cs "Avoid picking or squeezing lesions"]
    else []
  (riskRecs ++ condRecs ++
    [cs "Take photos to monitor changes over time",
     cs "Maintain good skin hygiene and avoid irritants"]).take 6

/-- `ConsultationEngine.generateEnhancedFallbackRecommendations` (the
fallback-path variant; capped at 8). -/
def generateEnhancedFallbackRecommendations (analysisResult : AnalysisResult)
    (symptoms : List Char) (errorCategory : ErrorCategory) : List (List Char) :=
  let topCondition := analysisResult.predictions.headD defaultCondition
  let conditionLower := lowerStr topCondition.condition
  let symptomsLower := lowerStr symptoms
  let riskRecs :=
    if analysisResult.riskLevel = Risk.high then
      [cs "🚨 URGENT: Seek immediate medical attention from a dermatologist or healthcare provider",
       cs "Do not delay - high-risk conditions require prompt professional evaluation",
       cs "Consider emergency care if symptoms worsen rapidly or if you experience systemic symptoms"]
    else if analysisResult.riskLevel = Risk.moderate then
      [cs "Schedule an appointment with a healthcare provider within 1-2 weeks",
       cs "Monitor the condition closely and seek immediate care if it worsens",
       cs "Document changes with photos and symptom tracking"]
    else
      [cs "Consider consulting a healthcare provider if symptoms persist or worsen over 2-3 weeks",
       cs "Continue monitoring and maintain good skin care practices"]
  let condRecs :=
    if containsSub (cs "eczema") conditionLower then
      [cs "Apply fragrance-free, hypoallergenic moisturizer 2-3 times daily",
       cs "Identify and avoid triggers (harsh soaps, certain fabrics, stress, allergens)",
       cs "Consider cool compresses for acute itching and inflammation",
       cs "Use mild, pH-balanced cleansers and lukewarm water for washing"]
    else if containsSub (cs "psoriasis") conditionLower then
      [cs "Keep skin well-moisturized with thick creams or ointments",
       cs "Consider medicated shampoos if scalp is affected",
       cs "Limited sun exposure may help, but always use sunscreen to prevent burns",
       cs "Manage stress levels as psychological stress can trigger flare-ups"]
    else if containsSub (cs "fungal") conditionLower then
      [cs "Keep the affected area clean, dry, and well-ventilated",
       cs "Consider over-the-counter antifungal creams or powders",
       cs "Wash clothing and bedding in hot water (140°F+) and dry thoroughly",
       cs "Avoid sharing personal items like towels, shoes, or clothing"]
    else if containsSub (cs "acne") conditionLower then
      [cs "Use gentle, non-comedogenic skincare products",
       cs "Avoid over-washing or harsh scrubbing which can worsen inflammation",
       cs "Consider over-the-counter treatments with salicylic acid or benzoyl peroxide",
       cs "Maintain a consistent skincare routine and avoid picking lesions"]
    else if containsSub (cs "melanoma") conditionLower ||
        containsSub (cs "carcinoma") conditionLower then
      [cs "🚨 CRITICAL: Contact a dermatologist immediately for urgent evaluation",
       cs "Protect the area from sun exposure while awaiting medical care",
       cs "Document the lesion with high-quality photos including a ruler for scale",
       cs "Prepare a list of any changes you've noticed in size, color, or texture"]
    else []
  let generalRecs :=
    [cs "Take clear, well-lit photos weekly to track any changes",
     cs "Maintain good overall skin hygiene and avoid known irritants",
     cs "Use broad-spectrum sunscreen (SPF 30+) daily to prevent further damage"]
  let errRecs :=
    if errorCategory = ErrorCategory.network ∨
        errorCategory = ErrorCategory.service_unavailable then
      [cs "💡 Try the AI consultation again later when connectivity is restored"]
    else if errorCategory = ErrorCategory.rate_limit then
      [cs "💡 AI consultation may be available again in a few minutes - you can retry"]
    else []
  let sympRecs :=
    (if !symptoms.isEmpty && containsSub (cs "pain") symptomsLower then
      [cs "For pain management, consider cool compresses and over-the-counter pain relief as appropriate"]
     else []) ++
    (if !symptoms.isEmpty && containsSub (cs "itch") symptomsLower then
      [cs "For itching, avoid scratching and consider antihistamines or cool compresses"]
     else [])
  (riskRecs ++ condRecs ++ generalRecs ++ errRecs ++ sympRecs).take 8

/-- `ConsultationEngine.determineUrgencyLevel`. -/
def determineUrgencyLevel (analysisResult : AnalysisResult) : Urgency :=
  let topCondition := analysisResult.predictions.headD defaultCondition
  let conditionLower := lowerStr topCondition.condition
  if analysisResult.riskLevel = Risk.high ||
      containsSub (cs "melanoma") conditionLower ||
      containsSub (cs "carcinoma") conditionLower then
    Urgency.immediate
  else if topCondition.requiresAttention || analysisResult.riskLevel = Risk.moderate then
    Urgency.within_week
  else if analysisResult.riskLevel = Risk.low && !topCondition.requiresAttention then
    Urgency.monitor
  else Urgency.routine

/-- `ConsultationEngine.generateEducationalInfo`. -/
def generateEducationalInfo (condition : DetectedCondition) : List Char :=
  if condition.description.isEmpty then
    cs "No additional educational information available for this condition."
  else condition.description

/-- `ConsultationEngine.generateEnhancedEducationalInfo`. -/
def generateEnhancedEducationalInfo (condition : DetectedCondition)
    (analysisResult : AnalysisResult) : List Char :=
  (if condition.description.isEmpty then
    cs "No specific educational information available for this condition."
   else condition.description) ++
  (if condition.category = cs "Dermatological" then
    cs "\n\nDermatological conditions often benefit from consistent skincare routines and professional medical guidance for optimal management."
   else if condition.category = cs "Infectious" then
    cs "\n\nInfectious skin conditions typically respond well to appropriate treatment when diagnosed and managed properly by healthcare providers."
   else if condition.category = cs "Autoimmune" then
    cs "\n\nAutoimmune skin conditions are chronic conditions that can be effectively managed with proper medical care and lifestyle modifications."
   else if condition.category = cs "Oncological" then
    cs "\n\n⚠️ Oncological conditions require immediate professional evaluation. Early detection and treatment significantly improve outcomes."
   else []) ++
  (if mkRat 4 5 < analysisResult.overallConfidence then
    cs "\n\nThe high confidence in this analysis suggests strong visual pattern matching, but professional confirmation is still recommended."
   else if analysisResult.overallConfidence < mkRat 1 2 then
    cs "\n\nThe moderate confidence level indicates some uncertainty in the analysis. Professional evaluation can provide definitive diagnosis."
   else [])

/-- `ConsultationEngine.getMedicalDisclaimer`. -/
def getMedicalDisclaimer : List Char :=
  cs "⚠️ **IMPORTANT MEDICAL DISCLAIMER**: This AI-powered analysis is for informational purposes only and is NOT a substitute for professional medical advice, diagnosis, or treatment. The analysis is based on visual patterns and should not be used for self-diagnosis. Always consult a qualified healthcare provider for any health concerns or before making medical decisions. If you have a medical emergency, call emergency services immediately."

/-- `ConsultationEngine.getEnhancedMedicalDisclaimer`. -/
def getEnhancedMedicalDisclaimer (errorCategory : ErrorCategory) : List Char :=
  cs "⚠️ **IMPORTANT MEDICAL DISCLAIMER**: This AI-powered analysis is for informational purposes only and is NOT a substitute for professional medical advice, diagnosis, or treatment. " ++
  cs "The analysis is based on visual patterns and should not be used for self-diagnosis. Always consult a qualified healthcare provider for any health concerns or before making medical decisions. " ++
  (if errorCategory ≠ ErrorCategory.unknown then
    cs "This analysis was generated using enhanced fallback processing due to temporary service limitations. "
   else []) ++
  cs "If you have a medical emergency, call emergency services immediately. " ++
  cs "For skin conditions showing rapid changes, unusual symptoms, or causing significant concern, seek prompt medical attention."

/-- `ConsultationEngine.getEmergencyContacts`. -/
def getEmergencyContacts (riskLevel : Risk) : List EmergencyContact :=
  (if riskLevel = Risk.high then
    [⟨ContactType.emergency, cs "Emergency Services", cs "911",
      cs "For immediate medical emergencies"⟩]
   else []) ++
  [⟨ContactType.dermatologist, cs "Dermatologist",
    cs "Contact your healthcare provider", cs "Specialized skin condition care"⟩] ++
  (if riskLevel ≠ Risk.low then
    [⟨ContactType.urgent_care, cs "Urgent Care", cs "Find local urgent care",
      cs "For non-emergency but urgent medical needs"⟩]
   else [])

/-! ## Response parsing and safety validation -/

/-- Split on newlines, as `content.split('\n')`. -/
def splitOnChar (sep : Char) : List Char → List (List Char)
  | [] => [[]]
  | c :: cstr =>
    match splitOnChar sep cstr with
    | [] => [[c]]
    | h :: t => if c = sep then [] :: h :: t else (c :: h) :: t

/-- Body accumulation of `extractSection`: take trimmed nonempty lines
(each followed by a space) until a `**`/`#` heading. -/
def sectionBody : List (List Char) → List Char
  | [] => []
  | line :: rest =>
    let t := jsTrim line
    if startsWithL (cs "**") t || startsWithL (cs "#") t then []
    else if t.isEmpty then sectionBody rest
    else t ++ [' '] ++ sectionBody rest

/-- `ConsultationEngine.extractSection`. -/
def extractSection (content : List Char) (sectionType : List Char) : Option (List Char) :=
  let lines := splitOnChar '\n' content
  match lines.findIdx? (fun line =>
      containsSub sectionType (lowerStr line) && containsSub (cs ":") line) with
  | none => none
  | some i =>
    let body := jsTrim (sectionBody (lines.drop (i + 1)))
    if body.isEmpty then none else some body

/-- `/^\d+\./.test(trimmed)`. -/
def startsNumDot (t : List Char) : Bool :=
  let ds := t.takeWhile Char.isDigit
  !ds.isEmpty && startsWithL (cs ".") (t.drop ds.length)

/-- `trimmed.replace(/^[-•\d.]\s*/, '')`: one leading bullet character and
the whitespace after it. -/
def stripBullet (t : List Char) : List Char :=
  match t with
  | [] => []
  | c :: rest =>
    if c = '-' || c = '•' || c = '.' || c.isDigit then rest.dropWhile jsWs
    else t

/-- The line scan of `extractRecommendations`. -/
def recLines : Bool → List (List Char) → List (List Char)
  | _, [] => []
  | inRecs, line :: rest =>
    let t := jsTrim line
    if containsSub (cs "recommendation") (lowerStr t) then recLines true rest
    else if inRecs then
      if startsWithL (cs "**") t || startsWithL (cs "#") t then []
      else if startsWithL (cs "-") t || startsWithL (cs "•") t || startsNumDot t then
        stripBullet t :: recLines inRecs rest
      else recLines inRecs rest
    else recLines inRecs rest

/-- `ConsultationEngine.extractRecommendations`. -/
def extractRecommendations (content : List Char) : Option (List (List Char)) :=
  let recommendations := recLines false (splitOnChar '\n' content)
  if recommendations.isEmpty then none else some recommendations

/-- `ConsultationEngine.extractUrgencyLevel`. -/
def extractUrgencyLevel (content : List Char) : Option Urgency :=
  let contentLower := lowerStr content
  if containsSub (cs "immediate") contentLower || containsSub (cs "urgent") contentLower ||
      containsSub (cs "emergency") contentLower then some Urgency.immediate
  else if containsSub (cs "within") contentLower && containsSub (cs "week") contentLower then
    some Urgency.within_week
  else if containsSub (cs "routine") contentLower then some Urgency.routine
  else if containsSub (cs "monitor") contentLower then some Urgency.monitor
  else none

/-- `ConsultationEngine.parseConsultationContent`. -/
def parseConsultationContent (content : List Char) (input : ConsultationInput) :
    Consultation :=
  { conditionAssessment :=
      (extractSection content (cs "assessment")).getD
        (generateFallbackAssessment input.analysisResult)
    symptomCorrelation :=
      (extractSection content (cs "symptom")).getD
        (generateSymptomCorrelation input.symptoms input.analysisResult)
    recommendations :=
      (extractRecommendations content).getD
        (generateFallbackRecommendations input.analysisResult input.symptoms)
    urgencyLevel :=
      (extractUrgencyLevel content).getD (determineUrgencyLevel input.analysisResult)
    educationalInfo :=
      (extractSection content (cs "educational")).getD
        (generateEducationalInfo (input.analysisResult.predictions.headD defaultCondition))
    medicalDisclaimer := getMedicalDisclaimer }

/-- JSON string escaping for the characters `JSON.stringify` escapes in the
texts at hand. -/
def jsonEscapeChar (c : Char) : List Char :=
  if c = '"' then ['\\', '"']
  else if c = '\\' then ['\\', '\\']
  else if c = '\n' then ['\\', 'n']
  else if c = '\t' then ['\\', 't']
  else if c = '\r' then ['\\', 'r']
  else [c]

def jsonEscape (l : List Char) : List Char := (l.map jsonEscapeChar).flatten

def urgencyStr : Urgency → List Char
  | Urgency.immediate => cs "immediate"
  | Urgency.within_week => cs "within_week"
  | Urgency.routine => cs "routine"
  | Urgency.monitor => cs "monitor"

/-- `JSON.stringify(consultation)` for the consultation object (keys in
creation order). -/
def stringifyConsultation (c : Consultation) : List Char :=
  cs "\x7b\"conditionAssessment\":\"" ++ jsonEscape c.conditionAssessment ++
  cs "\",\"symptomCorrelation\":\"" ++ jsonEscape c.symptomCorrelation ++
  cs "\",\"recommendations\":[" ++
    joinSep (cs ",") (c.recommendations.map (fun r => cs "\"" ++ jsonEscape r ++ cs "\"")) ++
  cs "],\"urgencyLevel\":\"" ++ urgencyStr c.urgencyLevel ++
  cs "\",\"educationalInfo\":\"" ++ jsonEscape c.educationalInfo ++
  cs "\",\"medicalDisclaimer\":\"" ++ jsonEscape c.medicalDisclaimer ++
  cs "\"\x7d"

def prohibitedTerms : List (List Char) :=
  [cs "i diagnose", cs "you have", cs "definitely", cs "certainly is",
   cs "prescription", cs "take this medication", cs "stop taking"]

/-- `ConsultationEngine.validateSafety`. -/
def validateSafety (consultation : Consultation) : Bool :=
  let content := lowerStr (stringifyConsultation consultation)
  let hasProhibitedContent := prohibitedTerms.any (fun term => containsSub term content)
  let hasDisclaimer := !consultation.medicalDisclaimer.isEmpty &&
    containsSub (cs "not a substitute") (lowerStr consultation.medicalDisclaimer)
  !hasProhibitedContent && hasDisclaimer

/-- `ConsultationEngine.processGeminiResponse`.  (`x || 'default'` on a
possibly-empty string is modelled by `jsOrStr`.) -/
def jsOrStr (x : Option (List Char)) (d : List Char) : List Char :=
  match x with
  | none => d
  | some m => if m.isEmpty then d else m

def processGeminiResponse (response : GeminiResp) (input : ConsultationInput) :
    ConsultationResponse :=
  let consultation := parseConsultationContent response.content input
  { consultation := consultation
    metadata :=
      { modelUsed := jsOrStr response.modelUsed (cs "gemini-1.5-pro")
        processingTime := response.processingTime.getD 0
        confidenceScore := input.analysisResult.overallConfidence
        fallbackUsed := false
        safetyValidated := validateSafety consultation }
    emergencyContacts := some (getEmergencyContacts input.analysisResult.riskLevel) }

/-! ## Retry loop (`generateGeminiConsultation`, lines 421-476) -/

def maxRetries : Nat := 3

def retryDelayMs : Nat := 1000

inductive SleepEvent
  | backoff (ms : Nat)
  | rateLimit (ms : Nat)
deriving DecidableEq, Repr

structure LoopTrace where
  result : Except ErrInfo ConsultationResponse
  calls : Nat
  sleeps : List SleepEvent
deriving Repr

/-- The catch-block of one attempt: rate-limit errors sleep `retryAfter`
(or the base delay) and continue; authentication errors propagate at once;
other errors take the exponential-backoff sleep while attempts remain, and
propagate from the last attempt. -/
def stepError (e : ErrInfo) (attempt : Nat) (next : LoopTrace) : LoopTrace :=
  if isRateLimitError e then
    ⟨next.result, next.calls + 1, SleepEvent.rateLimit (e.retryAfter.getD retryDelayMs) :: next.sleeps⟩
  else if isAuthenticationError e then ⟨Except.error e, 1, []⟩
  else if attempt < maxRetries then
    ⟨next.result, next.calls + 1, SleepEvent.backoff (retryDelayMs * 2 ^ (attempt - 1)) :: next.sleeps⟩
  else ⟨Except.error e, 1, []⟩

/-- The attempt loop.  `oracle n` is the outcome of attempt `n` of the
external call (client initialisation + `sendConsultationRequest`); a reply
with `success: false` is turned into a thrown error carrying the reply's
`error` text, as in the source. -/
def geminiLoopAux (input : ConsultationInput) (oracle : Nat → Except ErrInfo GeminiResp) :
    Nat → Nat → Option ErrInfo → LoopTrace
  | _, 0, lastError =>
    ⟨Except.error (lastError.getD ⟨cs "All Gemini consultation attempts failed", none, none⟩), 0, []⟩
  | attempt, fuel + 1, _ =>
    match oracle attempt with
    | Except.ok response =>
      if response.success then ⟨Except.ok (processGeminiResponse response input), 1, []⟩
      else
        let e : ErrInfo := ⟨jsOrStr response.error (cs "Gemini API request failed"), none, none⟩
        stepError e attempt (geminiLoopAux input oracle (attempt + 1) fuel (some e))
    | Except.error e => stepError e attempt (geminiLoopAux input oracle (attempt + 1) fuel (some e))

def geminiLoopRun (input : ConsultationInput) (oracle : Nat → Except ErrInfo GeminiResp) :
    LoopTrace :=
  geminiLoopAux input oracle 1 maxRetries none

/-! ## Fallback, error consultation and orchestrator -/

/-- `ConsultationEngine.handleFallback`. -/
def handleFallback (error : ErrInfo) (input : ConsultationInput) : ConsultationResponse :=
  let analysisResult := input.analysisResult
  let symptoms := input.symptoms
  let topPrediction := analysisResult.predictions.headD defaultCondition
  let errorCategory := categorizeError error
  { consultation :=
      { conditionAssessment := generateEnhancedFallbackAssessment analysisResult errorCategory
        symptomCorrelation := generateSymptomCorrelation symptoms analysisResult
        recommendations := generateEnhancedFallbackRecommendations analysisResult symptoms errorCategory
        urgencyLevel := determineUrgencyLevel analysisResult
        educationalInfo := generateEnhancedEducationalInfo topPrediction analysisResult
        medicalDisclaimer := getEnhancedMedicalDisclaimer errorCategory }
    metadata :=
      { modelUsed := cs "Enhanced Fallback Analysis Engine"
        processingTime := 0
        confidenceScore := analysisResult.overallConfidence
        fallbackUsed := true
        safetyValidated := true }
    emergencyContacts := some (getEmergencyContacts analysisResult.riskLevel) }

/-- `ConsultationEngine.createErrorConsultation` (the `error` and
`sessionId` parameters are unused in the source body too). -/
def createErrorConsultation (_error : ErrInfo) (processingTime : Nat)
    (_sessionId : List Char) : ConsultationResponse :=
  { consultation :=
      { conditionAssessment := cs "Unable to generate consultation due to a technical error."
        symptomCorrelation := cs "Symptom analysis could not be completed."
        recommendations :=
          [cs "Please try again in a few moments",
           cs "Ensure you have a stable internet connection",
           cs "Consider consulting a healthcare provider directly",
           cs "Save your analysis results for reference"]
        urgencyLevel := Urgency.routine
        educationalInfo := cs "Technical error prevented educational information retrieval."
        medicalDisclaimer := getMedicalDisclaimer }
    metadata :=
      { modelUsed := cs "Error Handler"
        processingTime := processingTime
        confidenceScore := 0
        fallbackUsed := true
        safetyValidated := true }
    emergencyContacts := none }

def circuitOpenErr : ErrInfo :=
  ⟨cs "Circuit breaker is open - service temporarily unavailable", none, none⟩

def validationErr (v : ValidationResult) : ErrInfo :=
  ⟨cs "Input validation failed: " ++ joinSep (cs ", ") v.errors, none, none⟩

/-- Step 1 of `generateConsultation`: sanitize and package the input. -/
def mkInput (analysisResult : AnalysisResult) (symptoms : List Char)
    (sessionId : List Char) (now : Nat) : ConsultationInput :=
  ⟨analysisResult, sanitizeSymptoms symptoms, sessionId, some now⟩

/-- Step 5 of `generateConsultation`: overwrite `processingTime` and
`fallbackUsed` on the produced response. -/
def setFinalMeta (r : ConsultationResponse) (processingTime : Nat)
    (fallbackUsed : Bool) : ConsultationResponse :=
  { r with metadata :=
      { r.metadata with processingTime := processingTime, fallbackUsed := fallbackUsed } }

/-- `ConsultationEngine.generateConsultation`.  The `Except` result mirrors
the promise: `.error` would be a rejection.  `st` is the breaker state at
entry, `now` the clock used for the breaker, `dur` the measured processing
time, `oracle` the environment's per-attempt outcome of the external call.
The inner try/catch around the breaker turns any thrown error into the
fallback consultation; the outer catch turns a validation throw into the
error consultation. -/
def generateConsultation (st : CBState) (now dur : Nat)
    (analysisResult : AnalysisResult) (symptoms sessionId : List Char)
    (oracle : Nat → Except ErrInfo GeminiResp) :
    Except ErrInfo (ConsultationResponse × CBState) :=
  let input := mkInput analysisResult symptoms sessionId now
  let validation := validateInput input
  if validation.valid then
    match cbGate now st with
    | none =>
      Except.ok (setFinalMeta (handleFallback circuitOpenErr input) dur true, st)
    | some st1 =>
      let t := geminiLoopRun input oracle
      match t.result with
      | Except.ok r => Except.ok (setFinalMeta r dur false, cbOnSuccess st1)
      | Except.error e =>
        Except.ok (setFinalMeta (handleFallback e input) dur true, cbOnFailure now st1)
  else
    Except.ok (createErrorConsultation (validationErr validation) dur sessionId, st)

/-- An attempt outcome that the retry loop treats as a failure: a thrown
error, or a reply with `success: false`. -/
def attemptFails : Except ErrInfo GeminiResp → Bool
  | Except.error _ => true
  | Except.ok r => !r.success

/-! ## Concrete fixtures (drawn from the repository's test data) -/

def eczemaCond : DetectedCondition :=
  ⟨cs "Eczema (Atopic Dermatitis)", mkRat 85 100, Severity.moderate, cs "Dermatological", true,
   cs "Inflammatory skin condition causing itchy, red, swollen skin patches."⟩

def arEczema : AnalysisResult :=
  ⟨[eczemaCond], cs "Eczema (Atopic Dermatitis)", mkRat 85 100, Risk.moderate,
   [cs "Apply moisturizer"], ⟨true, true, cs "BiomedCLIP", 1500⟩⟩

def inpEczema : ConsultationInput := ⟨arEczema, cs "", cs "sid", some 0⟩

def melCond : DetectedCondition :=
  ⟨cs "Melanoma", mkRat 3 4, Severity.severe, cs "Oncological", false,
   cs "Potentially dangerous form of skin cancer."⟩

/-- A melanoma top prediction whose classifier-supplied risk label is `low`. -/
def arMelLow : AnalysisResult :=
  ⟨[melCond], cs "Melanoma", mkRat 3 4, Risk.low, [], ⟨true, true, cs "BiomedCLIP", 1⟩⟩

def inpMelLow : ConsultationInput := ⟨arMelLow, cs "", cs "sid", some 0⟩

def eAuth : ErrInfo := ⟨cs "Authentication failed - invalid API key", none, none⟩

/-- An error carrying an authentication marker in its message and HTTP
status 429: it matches both the authentication and the rate-limit
signatures. -/
def eAuthAnd429 : ErrInfo := ⟨cs "unauthorized", some 429, none⟩

def eNet : ErrInfo := ⟨cs "Network connection failed", none, none⟩

def eRateLimit : ErrInfo := ⟨cs "Rate limit exceeded", some 429, none⟩

/-- Attempt 1 is rate-limited, later attempts fail with a network error. -/
def oracleRLThenNet : Nat → Except ErrInfo GeminiResp :=
  fun n => if n = 1 then Except.error eRateLimit else Except.error eNet

def consX : Consultation :=
  ⟨cs "a", cs "b", [cs "r"], Urgency.routine, cs "e", getMedicalDisclaimer⟩

/-- A successful reply whose text contains a symptom-correlation section. -/
def respSym : GeminiResp :=
  ⟨true, cs "Symptom Correlation:\nImage-only assessment performed", none, none, none⟩

/-! ## Helper lemmas -/

theorem startsWithL_append (p l m : List Char) (h : startsWithL p l = true) :
    startsWithL p (l ++ m) = true := by
  induction p generalizing l with
  | nil => simp [startsWithL]
  | cons a ps ih =>
    cases l with
    | nil => simp [startsWithL] at h
    | cons c cstr =>
      simp only [startsWithL, Bool.and_eq_true] at h
      simp only [List.cons_append, startsWithL, Bool.and_eq_true]
      exact ⟨h.1, ih cstr h.2⟩

theorem containsSub_nil (l : List Char) : containsSub [] l = true := by
  cases l <;> simp [containsSub, startsWithL]

theorem containsSub_append_right (p a b : List Char) (h : containsSub p b = true) :
    containsSub p (a ++ b) = true := by
  induction a with
  | nil => simpa using h
  | cons c a ih =>
    simp only [List.cons_append, containsSub, Bool.or_eq_true]
    exact Or.inr ih

theorem containsSub_append_left (p a b : List Char) (h : containsSub p a = true) :
    containsSub p (a ++ b) = true := by
  induction a with
  | nil =>
    simp only [containsSub, List.isEmpty_iff] at h
    subst h
    exact containsSub_nil b
  | cons c a ih =>
    simp only [containsSub, Bool.or_eq_true] at h
    simp only [List.cons_append, containsSub, Bool.or_eq_true]
    cases h with
    | inl h => exact Or.inl (by simpa using startsWithL_append p (c :: a) b h)
    | inr h => exact Or.inr (ih h)

theorem contains_lowerStr_append (p a b : List Char)
    (h : containsSub p (lowerStr b) = true) :
    containsSub p (lowerStr (a ++ b)) = true := by
  unfold lowerStr
  rw [List.map_append]
  exact containsSub_append_right p _ _ h

theorem contains_lowerStr_append_left (p a b : List Char)
    (h : containsSub p (lowerStr a) = true) :
    containsSub p (lowerStr (a ++ b)) = true := by
  unfold lowerStr
  rw [List.map_append]
  exact containsSub_append_left p _ _ h

/-! ## C2: circuit breaker state machine -/

/-- The breaker invariant preserved by every `execute` step. -/
def cbInv (s : CBState) : Prop :=
  (s.mode = CBMode.closed → s.failureCount < failureThreshold) ∧
  (s.mode = CBMode.halfOpen → failureThreshold ≤ s.failureCount) ∧
  (s.mode = CBMode.opened → failureThreshold ≤ s.failureCount)

theorem cbInv_step (now : Nat) (op : Bool) (s : CBState) (h : cbInv s) :
    cbInv (cbExecute now op s).state := by
  obtain ⟨fc, lt, mode⟩ := s
  obtain ⟨h1, h2, h3⟩ := h
  simp only at h1 h2 h3
  cases mode <;> cases op <;>
    simp only [cbInv, cbExecute, cbGate, cbOnSuccess, cbOnFailure,
      failureThreshold, recoveryTimeoutMs] <;>
    split_ifs <;> simp_all [failureThreshold, recoveryTimeoutMs] <;>
    first
    | omega
    | (split_ifs <;> simp_all <;> omega)

theorem cbReach_invariant {s : CBState} (h : CBReach s) :
    (s.mode = CBMode.closed → s.failureCount < failureThreshold) ∧
    (s.mode = CBMode.halfOpen → failureThreshold ≤ s.failureCount) ∧
    (s.mode = CBMode.opened → failureThreshold ≤ s.failureCount) := by
  induction h with
  | init => simp [cbInit, failureThreshold]
  | step now op _ ih => exact cbInv_step now op _ ih

/-- C2 — The circuit breaker state machine: starting closed with counter 0,
a failure in `closed` increments the counter, stamps the failure time and
opens exactly when the counter reaches the threshold; while `open`, a call
within the recovery timeout is rejected without invoking the operation and
leaves the state untouched, while a call after the timeout is allowed (the
half-open trial); any success in `closed` or `half-open` resets the counter
and closes; a failure in `half-open` (or in the half-open trial reached
from `open`) reopens, restamping the failure time. -/
theorem circuit_breaker_c2 (s : CBState) (now : Nat) (op : Bool) (hs : CBReach s) :
    cbInit.mode = CBMode.closed ∧ cbInit.failureCount = 0 ∧
    (s.mode = CBMode.closed → op = false →
      (cbExecute now op s).state.failureCount = s.failureCount + 1 ∧
      (cbExecute now op s).state.lastFailureTime = now ∧
      ((cbExecute now op s).state.mode = CBMode.opened ↔
        failureThreshold ≤ s.failureCount + 1)) ∧
    (s.mode = CBMode.opened → now - s.lastFailureTime ≤ recoveryTimeoutMs →
      (cbExecute now op s).invoked = false ∧ (cbExecute now op s).rejected = true ∧
      (cbExecute now op s).state = s) ∧
    (s.mode = CBMode.opened → recoveryTimeoutMs < now - s.lastFailureTime →
      (cbExecute now op s).invoked = true ∧ (cbExecute now op s).rejected = false ∧
      (op = true → (cbExecute now op s).state.mode = CBMode.closed ∧
        (cbExecute now op s).state.failureCount = 0) ∧
      (op = false → (cbExecute now op s).state.mode = CBMode.opened ∧
        (cbExecute now op s).state.lastFailureTime = now)) ∧
    ((s.mode = CBMode.closed ∨ s.mode = CBMode.halfOpen) → op = true →
      (cbExecute now op s).invoked = true ∧
      (cbExecute now op s).state.failureCount = 0 ∧
      (cbExecute now op s).state.mode = CBMode.closed) ∧
    (s.mode = CBMode.halfOpen → op = false →
      (cbExecute now op s).state.mode = CBMode.opened ∧
      (cbExecute now op s).state.lastFailureTime = now) := by
  have inv := cbReach_invariant hs
  obtain ⟨fc, lt, mode⟩ := s
  obtain ⟨h1, h2, h3⟩ := inv
  simp only at h1 h2 h3
  refine ⟨rfl, rfl, ?_, ?_, ?_, ?_, ?_⟩ <;>
    cases mode <;> cases op <;>
    simp only [cbExecute, cbGate, cbOnSuccess, cbOnFailure] <;>
    split_ifs <;> simp_all <;> omega

theorem circuit_breaker_c2_witness :
    (cbExecute 0 false cbInit).state.failureCount = cbInit.failureCount + 1 ∧
    (cbExecute 0 false cbInit).state.lastFailureTime = 0 := by
  have h := circuit_breaker_c2 cbInit 0 false CBReach.init
  exact ⟨(h.2.2.1 rfl rfl).1, (h.2.2.1 rfl rfl).2.1⟩

/-! ## C7: risk assessment safety floor -/

/-- C7 — `assessRiskLevel` implements the safety floor: a top-prediction
name matching one of the fixed high-risk substrings forces level `high`
and urgent care regardless of the classifier label; otherwise the
classifier-supplied label passes through unchanged and urgent care is
false (so the confidence/attention contributing factors never alter the
level). -/
theorem assess_risk_c7 (ar : AnalysisResult) :
    (highRiskConditions.any (fun c => containsSub c (lowerStr ar.topPrediction)) = true →
      (assessRiskLevel ar).level = Risk.high ∧
      (assessRiskLevel ar).requiresUrgentCare = true) ∧
    (highRiskConditions.any (fun c => containsSub c (lowerStr ar.topPrediction)) = false →
      (assessRiskLevel ar).level = ar.riskLevel ∧
      (assessRiskLevel ar).requiresUrgentCare = false) := by
  constructor <;> intro h <;> simp [assessRiskLevel, h]

theorem assess_risk_c7_witness :
    ((assessRiskLevel arMelLow).level = Risk.high ∧
      (assessRiskLevel arMelLow).requiresUrgentCare = true) ∧
    ((assessRiskLevel arEczema).level = Risk.moderate ∧
      (assessRiskLevel arEczema).requiresUrgentCare = false) :=
  ⟨(assess_risk_c7 arMelLow).1 (by decide), (assess_risk_c7 arEczema).2 (by decide)⟩

/-! ## C9: the standard disclaimer trips the safety validator -/

set_option maxRecDepth 40000 in
set_option maxHeartbeats 8000000 in
/-- C9 — Any consultation whose `medicalDisclaimer` is the standard
disclaimer fails `validateSafety`: the serialized consultation contains the
prohibited phrase "you have" (from "If you have a medical emergency"), so
every primary-path response built by `processGeminiResponse` carries
`safetyValidated = false`. -/
theorem safety_validation_c9 :
    (∀ c : Consultation, c.medicalDisclaimer = getMedicalDisclaimer →
      validateSafety c = false) ∧
    (∀ (resp : GeminiResp) (input : ConsultationInput),
      (processGeminiResponse resp input).metadata.safetyValidated = false) := by
  have h1 : ∀ c : Consultation, c.medicalDisclaimer = getMedicalDisclaimer →
      validateSafety c = false := by
    intro c h
    have hyou : containsSub (cs "you have") (lowerStr (stringifyConsultation c)) = true := by
      simp only [stringifyConsultation, h]
      apply contains_lowerStr_append_left
      apply contains_lowerStr_append
      decide
    have hany : (prohibitedTerms.any fun term =>
        containsSub term (lowerStr (stringifyConsultation c))) = true := by
      apply List.any_eq_true.mpr
      exact ⟨cs "you have", by simp [prohibitedTerms], hyou⟩
    simp [validateSafety, hany]
  refine ⟨h1, fun resp input => ?_⟩
  have h2 := h1 (parseConsultationContent resp.content input) rfl
  simpa [processGeminiResponse] using h2

theorem safety_validation_c9_witness : validateSafety consX = false :=
  safety_validation_c9.1 consX rfl

/-! ## C6 (corrected): high-risk name forces immediate urgency, but the
emergency contact tracks the classifier risk label -/

set_option maxHeartbeats 2000000 in
/-- C6 counterexample — For the melanoma-named, classifier-label-`low`
input, the fallback consultation's urgency is `immediate` as claimed, but
its emergency-contacts list contains no entry of type `emergency`: the
claim's second conjunct fails because `getEmergencyContacts` receives the
raw classifier risk label, which the name-based safety floor does not
touch. -/
theorem fallback_urgency_c6_counterexample :
    containsSub (cs "melanoma")
      (lowerStr (arMelLow.predictions.headD defaultCondition).condition) = true ∧
    (handleFallback eNet inpMelLow).consultation.urgencyLevel = Urgency.immediate ∧
    ((handleFallback eNet inpMelLow).emergencyContacts.getD []).any
      (fun c => c.type == ContactType.emergency) = false := by
  refine ⟨by decide, by decide, by decide⟩

/-- C6 (amended) — For any input whose top prediction's name contains
"melanoma" or "carcinoma", the fallback consultation's urgency level is
`immediate`; its emergency-contacts list contains an entry of type
`emergency` exactly when the classifier-supplied risk label is `high`. -/
theorem fallback_urgency_c6 (e : ErrInfo) (input : ConsultationInput)
    (h : containsSub (cs "melanoma")
        (lowerStr (input.analysisResult.predictions.headD defaultCondition).condition) = true ∨
      containsSub (cs "carcinoma")
        (lowerStr (input.analysisResult.predictions.headD defaultCondition).condition) = true) :
    (handleFallback e input).consultation.urgencyLevel = Urgency.immediate ∧
    ((handleFallback e input).emergencyContacts.getD []).any
        (fun c => c.type == ContactType.emergency) =
      (input.analysisResult.riskLevel == Risk.high) := by
  constructor
  · show determineUrgencyLevel input.analysisResult = Urgency.immediate
    unfold determineUrgencyLevel
    simp only [List.headD_eq_head?] at h
    rcases h with h | h <;> simp [h]
  · show (getEmergencyContacts input.analysisResult.riskLevel).any
        (fun c => c.type == ContactType.emergency) =
      (input.analysisResult.riskLevel == Risk.high)
    cases input.analysisResult.riskLevel <;> decide

theorem fallback_urgency_c6_witness :
    (handleFallback eNet inpMelLow).consultation.urgencyLevel = Urgency.immediate ∧
    ((handleFallback eNet inpMelLow).emergencyContacts.getD []).any
        (fun c => c.type == ContactType.emergency) =
      (arMelLow.riskLevel == Risk.high) :=
  fallback_urgency_c6 eNet inpMelLow (Or.inl (by decide))

/-! ## Retry-loop lemmas -/

theorem stepError_result_error (e : ErrInfo) (attempt : Nat) (next : LoopTrace)
    (h : ∃ e2, next.result = Except.error e2) :
    ∃ e2, (stepError e attempt next).result = Except.error e2 := by
  unfold stepError
  split_ifs <;> simp_all

theorem stepError_result_ok (e : ErrInfo) (attempt : Nat) (next : LoopTrace)
    (r : ConsultationResponse)
    (h : (stepError e attempt next).result = Except.ok r) :
    next.result = Except.ok r := by
  unfold stepError at h
  split_ifs at h <;> simp_all

/-- One unfolding step of the loop at a thrown attempt error. -/
theorem geminiLoopAux_error_step (input : ConsultationInput)
    (oracle : Nat → Except ErrInfo GeminiResp) (attempt fuel : Nat)
    (lastError : Option ErrInfo) (e : ErrInfo)
    (h : oracle attempt = Except.error e) :
    geminiLoopAux input oracle attempt (fuel + 1) lastError =
      stepError e attempt (geminiLoopAux input oracle (attempt + 1) fuel (some e)) := by
  simp only [geminiLoopAux, h]

/-- A trace result of `ok` can only come from `processGeminiResponse` on a
successful reply of the oracle. -/
theorem geminiLoopAux_ok (input : ConsultationInput)
    (oracle : Nat → Except ErrInfo GeminiResp) (fuel : Nat) :
    ∀ (attempt : Nat) (lastError : Option ErrInfo) (r : ConsultationResponse),
    (geminiLoopAux input oracle attempt fuel lastError).result = Except.ok r →
    ∃ resp, resp.success = true ∧ r = processGeminiResponse resp input := by
  induction fuel with
  | zero => intro attempt lastError r h; simp [geminiLoopAux] at h
  | succ fuel ih =>
    intro attempt lastError r h
    unfold geminiLoopAux at h
    cases horacle : oracle attempt with
    | ok resp =>
      rw [horacle] at h
      by_cases hs : resp.success = true
      · simp [hs] at h
        exact ⟨resp, hs, h.symm⟩
      · simp [hs] at h
        exact ih _ _ _ (stepError_result_ok _ _ _ _ h)
    | error e =>
      rw [horacle] at h
      exact ih _ _ _ (stepError_result_ok _ _ _ _ h)

/-- If every attempt fails, the loop result is an error. -/
theorem geminiLoopAux_all_fail (input : ConsultationInput)
    (oracle : Nat → Except ErrInfo GeminiResp)
    (hf : ∀ n, attemptFails (oracle n) = true) (fuel : Nat) :
    ∀ (attempt : Nat) (lastError : Option ErrInfo),
    ∃ e, (geminiLoopAux input oracle attempt fuel lastError).result = Except.error e := by
  induction fuel with
  | zero => intro attempt lastError; simp [geminiLoopAux]
  | succ fuel ih =>
    intro attempt lastError
    unfold geminiLoopAux
    cases horacle : oracle attempt with
    | ok resp =>
      have hfail := hf attempt
      rw [horacle] at hfail
      simp only [attemptFails, Bool.not_eq_true'] at hfail
      simp only [hfail]
      exact stepError_result_error _ _ _ (ih _ _)
    | error e => exact stepError_result_error _ _ _ (ih _ _)

theorem stepError_calls_le (e : ErrInfo) (attempt : Nat) (next : LoopTrace)
    (fuel : Nat) (h : next.calls ≤ fuel) :
    (stepError e attempt next).calls ≤ fuel + 1 := by
  unfold stepError
  split_ifs <;> simp <;> omega

/-- The loop never invokes the callable more often than it has fuel. -/
theorem geminiLoopAux_calls_le (input : ConsultationInput)
    (oracle : Nat → Except ErrInfo GeminiResp) (fuel : Nat) :
    ∀ (attempt : Nat) (lastError : Option ErrInfo),
    (geminiLoopAux input oracle attempt fuel lastError).calls ≤ fuel := by
  induction fuel with
  | zero => intro attempt lastError; simp [geminiLoopAux]
  | succ fuel ih =>
    intro attempt lastError
    unfold geminiLoopAux
    cases horacle : oracle attempt with
    | ok resp =>
      by_cases hs : resp.success = true
      · simp [hs]
      · simp only [hs, Bool.false_eq_true, if_false]
        exact stepError_calls_le _ _ _ _ (ih _ _)
    | error e => exact stepError_calls_le _ _ _ _ (ih _ _)

/-! ## C3 (corrected): authentication errors are not retried unless they
also carry the rate-limit signature -/

/-- C3 counterexample — An error whose message contains the `unauthorized`
authentication marker but whose status is 429 matches the claim's
authentication signature, yet the loop invokes the callable three times,
not once: the rate-limit check runs first in the source, so such an error
is retried. -/
theorem auth_no_retry_c3_counterexample :
    isAuthenticationError eAuthAnd429 = true ∧
    ¬((geminiLoopRun inpEczema (fun _ => Except.error eAuthAnd429)).calls = 1) ∧
    (geminiLoopRun inpEczema (fun _ => Except.error eAuthAnd429)).calls = 3 := by
  refine ⟨by decide, by decide, by decide⟩

/-- C3 (amended) — An attempt failure matching the authentication
signature and not the rate-limit signature aborts the loop at once: the
callable is invoked exactly once, the error propagates unchanged, and the
orchestrator (when validation passed and the breaker admitted the call)
returns the fallback consultation for it. -/
theorem auth_no_retry_c3 (input : ConsultationInput)
    (oracle : Nat → Except ErrInfo GeminiResp) (e : ErrInfo)
    (h1 : oracle 1 = Except.error e)
    (h2 : isAuthenticationError e = true)
    (h3 : isRateLimitError e = false) :
    (geminiLoopRun input oracle).calls = 1 ∧
    (geminiLoopRun input oracle).result = Except.error e ∧
    (∀ (st : CBState) (now dur : Nat) (analysisResult : AnalysisResult)
        (symptoms sessionId : List Char),
      mkInput analysisResult symptoms sessionId now = input →
      (validateInput input).valid = true →
      ∀ st1, cbGate now st = some st1 →
      generateConsultation st now dur analysisResult symptoms sessionId oracle =
        Except.ok (setFinalMeta (handleFallback e input) dur true,
          cbOnFailure now st1)) := by
  have hrun : geminiLoopRun input oracle = ⟨Except.error e, 1, []⟩ := by
    calc geminiLoopRun input oracle
        = geminiLoopAux input oracle 1 (2 + 1) none := rfl
      _ = stepError e 1 (geminiLoopAux input oracle 2 2 (some e)) :=
          geminiLoopAux_error_step input oracle 1 2 none e h1
      _ = ⟨Except.error e, 1, []⟩ := by unfold stepError; simp [h2, h3]
  refine ⟨by rw [hrun], by rw [hrun], ?_⟩
  intro st now dur analysisResult symptoms sessionId hmk hv st1 hgate
  unfold generateConsultation
  rw [hmk]
  simp only [hv, hgate, hrun, if_true]

theorem auth_no_retry_c3_witness :
    (geminiLoopRun inpEczema (fun _ => Except.error eAuth)).calls = 1 ∧
    (geminiLoopRun inpEczema (fun _ => Except.error eAuth)).result = Except.error eAuth :=
  ⟨(auth_no_retry_c3 inpEczema _ eAuth rfl (by decide) (by decide)).1,
   (auth_no_retry_c3 inpEczema _ eAuth rfl (by decide) (by decide)).2.1⟩

/-! ## C4 (corrected): rate-limited attempts skip the backoff sleep but do
consume the bounded retry budget -/

/-- C4 counterexample — With attempt 1 rate-limited and later attempts
failing generically, the claim's reading (the rate-limited re-attempt
consumes no slot of the bounded retry budget) would leave three
backoff-schedule attempts after the rate-limit wait, i.e. four invocations
in total; the code invokes the callable only three times: the rate-limited
attempt consumed one of the `maxRetries` slots. -/
theorem rate_limit_c4_counterexample :
    isRateLimitError eRateLimit = true ∧
    (geminiLoopRun inpEczema oracleRLThenNet).calls = 3 ∧
    ¬((geminiLoopRun inpEczema oracleRLThenNet).calls = 4) := by
  refine ⟨by decide, by decide, by decide⟩

/-- C4 (amended) — An attempt failure matching the rate-limit signature
sleeps the provider-supplied (or default) retry-after duration instead of
an exponential-backoff sleep and re-attempts, but the re-attempt continues
from the next attempt number with one less unit of the bounded retry
budget, which never admits more than `maxRetries` invocations in total. -/
theorem rate_limit_c4 (input : ConsultationInput)
    (oracle : Nat → Except ErrInfo GeminiResp) (e : ErrInfo)
    (h1 : oracle 1 = Except.error e)
    (h2 : isRateLimitError e = true) :
    geminiLoopRun input oracle =
      ⟨(geminiLoopAux input oracle 2 2 (some e)).result,
       (geminiLoopAux input oracle 2 2 (some e)).calls + 1,
       SleepEvent.rateLimit (e.retryAfter.getD retryDelayMs) ::
         (geminiLoopAux input oracle 2 2 (some e)).sleeps⟩ ∧
    (∀ oracle2 : Nat → Except ErrInfo GeminiResp,
      (geminiLoopRun input oracle2).calls ≤ maxRetries) := by
  constructor
  · calc geminiLoopRun input oracle
        = geminiLoopAux input oracle 1 (2 + 1) none := rfl
      _ = stepError e 1 (geminiLoopAux input oracle 2 2 (some e)) :=
          geminiLoopAux_error_step input oracle 1 2 none e h1
      _ = _ := by unfold stepError; simp [h2]
  · intro oracle2
    exact geminiLoopAux_calls_le input oracle2 maxRetries 1 none

theorem rate_limit_c4_witness :
    geminiLoopRun inpEczema oracleRLThenNet =
      ⟨(geminiLoopAux inpEczema oracleRLThenNet 2 2 (some eRateLimit)).result,
       (geminiLoopAux inpEczema oracleRLThenNet 2 2 (some eRateLimit)).calls + 1,
       SleepEvent.rateLimit (eRateLimit.retryAfter.getD retryDelayMs) ::
         (geminiLoopAux inpEczema oracleRLThenNet 2 2 (some eRateLimit)).sleeps⟩ :=
  (rate_limit_c4 inpEczema oracleRLThenNet eRateLimit rfl (by decide)).1

/-! ## C5: exhausted externals always yield a bounded fallback -/

theorem setFinalMeta_consultation (r : ConsultationResponse) (dur : Nat) (fb : Bool) :
    (setFinalMeta r dur fb).consultation = r.consultation := rfl

theorem setFinalMeta_fallbackUsed (r : ConsultationResponse) (dur : Nat) (fb : Bool) :
    (setFinalMeta r dur fb).metadata.fallbackUsed = fb := rfl

theorem handleFallback_recommendations (e : ErrInfo) (input : ConsultationInput) :
    (handleFallback e input).consultation.recommendations =
      generateEnhancedFallbackRecommendations input.analysisResult input.symptoms
        (categorizeError e) := rfl

theorem take8_length_bound (l : List (List Char)) (h : 1 ≤ l.length) :
    1 ≤ (l.take 8).length ∧ (l.take 8).length ≤ 8 := by
  simp only [List.length_take]
  omega

theorem enhanced_recs_length (ar : AnalysisResult) (symptoms : List Char)
    (cat : ErrorCategory) :
    1 ≤ (generateEnhancedFallbackRecommendations ar symptoms cat).length ∧
    (generateEnhancedFallbackRecommendations ar symptoms cat).length ≤ 8 := by
  unfold generateEnhancedFallbackRecommendations
  dsimp only
  apply take8_length_bound
  simp only [List.length_append, List.length_cons, List.length_nil]
  omega

set_option maxHeartbeats 2000000 in
/-- C5 — For every valid input whose external call fails on every attempt,
the orchestrator returns a response with `fallbackUsed = true` whose
recommendation list has between 1 and 8 entries. -/
theorem fallback_bounds_c5 (st : CBState) (now dur : Nat) (ar : AnalysisResult)
    (symptoms sessionId : List Char) (oracle : Nat → Except ErrInfo GeminiResp)
    (hv : (validateInput (mkInput ar symptoms sessionId now)).valid = true)
    (hf : ∀ n, attemptFails (oracle n) = true) :
    ∃ r st', generateConsultation st now dur ar symptoms sessionId oracle =
        Except.ok (r, st') ∧
      r.metadata.fallbackUsed = true ∧
      1 ≤ r.consultation.recommendations.length ∧
      r.consultation.recommendations.length ≤ 8 := by
  unfold generateConsultation
  simp only [hv, if_true]
  cases hgate : cbGate now st with
  | none =>
    refine ⟨_, _, rfl, ?_, ?_, ?_⟩
    · rw [setFinalMeta_fallbackUsed]
    · rw [setFinalMeta_consultation, handleFallback_recommendations]
      exact (enhanced_recs_length _ _ _).1
    · rw [setFinalMeta_consultation, handleFallback_recommendations]
      exact (enhanced_recs_length _ _ _).2
  | some st1 =>
    obtain ⟨e, he⟩ :=
      geminiLoopAux_all_fail (mkInput ar symptoms sessionId now) oracle hf maxRetries 1 none
    have he2 : (geminiLoopRun (mkInput ar symptoms sessionId now) oracle).result =
        Except.error e := he
    rw [he2]
    refine ⟨_, _, rfl, ?_, ?_, ?_⟩
    · rw [setFinalMeta_fallbackUsed]
    · rw [setFinalMeta_consultation, handleFallback_recommendations]
      exact (enhanced_recs_length _ _ _).1
    · rw [setFinalMeta_consultation, handleFallback_recommendations]
      exact (enhanced_recs_length _ _ _).2

set_option maxRecDepth 40000 in
set_option maxHeartbeats 2000000 in
theorem fallback_bounds_c5_witness :
    ∃ r st', generateConsultation cbInit 0 5 arEczema (cs "itchy") (cs "sid")
        (fun _ => Except.error eNet) = Except.ok (r, st') ∧
      r.metadata.fallbackUsed = true ∧
      1 ≤ r.consultation.recommendations.length ∧
      r.consultation.recommendations.length ≤ 8 :=
  fallback_bounds_c5 cbInit 0 5 arEczema (cs "itchy") (cs "sid") _
    (by decide) (fun _ => rfl)

/-! ## C1: the orchestrator never throws -/

set_option maxHeartbeats 2000000 in
/-- C1 — `generateConsultation` always resolves with a response (never
rejects): a validation failure yields the error consultation (marked
`fallbackUsed = true` in its metadata), any breaker rejection or loop
failure yields the fallback consultation with `fallbackUsed = true` and
the measured processing time recorded, and otherwise the primary response
is returned with `fallbackUsed = false`. -/
theorem generate_consultation_c1 (st : CBState) (now dur : Nat)
    (ar : AnalysisResult) (symptoms sessionId : List Char)
    (oracle : Nat → Except ErrInfo GeminiResp) :
    ∃ r st', generateConsultation st now dur ar symptoms sessionId oracle =
        Except.ok (r, st') ∧
      (((validateInput (mkInput ar symptoms sessionId now)).valid = false ∧
        r = createErrorConsultation
          (validationErr (validateInput (mkInput ar symptoms sessionId now))) dur sessionId ∧
        r.metadata.fallbackUsed = true) ∨
       ((∃ e, r = setFinalMeta (handleFallback e (mkInput ar symptoms sessionId now)) dur true) ∧
        r.metadata.fallbackUsed = true ∧ r.metadata.processingTime = dur) ∨
       ((∃ resp : GeminiResp, resp.success = true ∧
          r = setFinalMeta (processGeminiResponse resp (mkInput ar symptoms sessionId now)) dur false) ∧
        r.metadata.fallbackUsed = false ∧ r.metadata.processingTime = dur)) := by
  by_cases hv : (validateInput (mkInput ar symptoms sessionId now)).valid = true
  · unfold generateConsultation
    simp only [hv, if_true]
    cases hgate : cbGate now st with
    | none => exact ⟨_, _, rfl, Or.inr (Or.inl ⟨⟨circuitOpenErr, rfl⟩, rfl, rfl⟩)⟩
    | some st1 =>
      cases ht : (geminiLoopRun (mkInput ar symptoms sessionId now) oracle).result with
      | ok r0 =>
        obtain ⟨resp, hsucc, hr0⟩ :=
          geminiLoopAux_ok (mkInput ar symptoms sessionId now) oracle maxRetries 1 none r0 ht
        exact ⟨_, _, rfl, Or.inr (Or.inr ⟨⟨resp, hsucc, by rw [hr0]⟩, rfl, rfl⟩)⟩
      | error e =>
        exact ⟨_, _, rfl, Or.inr (Or.inl ⟨⟨e, rfl⟩, rfl, rfl⟩)⟩
  · rw [Bool.not_eq_true] at hv
    unfold generateConsultation
    simp only [hv, Bool.false_eq_true, if_false]
    exact ⟨_, _, rfl, Or.inl ⟨trivial, rfl, rfl⟩⟩

/-! ## C8 (corrected): sanitization is not idempotent in general; it is
idempotent when the single pass removes nothing and does not truncate -/

theorem dropWhile_head_not (l : List Char) : headNotWs (l.dropWhile jsWs) = true := by
  induction l with
  | nil => rfl
  | cons c t ih =>
    rw [List.dropWhile_cons]
    by_cases h : jsWs c = true
    · rw [if_pos h]; exact ih
    · rw [if_neg h]
      simp only [headNotWs, Bool.not_eq_true']
      exact Bool.not_eq_true _ ▸ Bool.of_not_eq_true h

theorem head?_not_ws (m : List Char) (hm : headNotWs m = true) (c : Char)
    (h : m.head? = some c) : jsWs c = false := by
  cases m <;> simp_all [headNotWs]

theorem getLast?_cons_of_ne_nil (x : Char) (r : List Char) (h : r ≠ []) :
    (x :: r).getLast? = r.getLast? := by
  cases r with
  | nil => exact absurd rfl h
  | cons d t => exact List.getLast?_cons_cons

theorem getLast?_dropWhile (p : Char → Bool) (l : List Char)
    (h : l.dropWhile p ≠ []) : (l.dropWhile p).getLast? = l.getLast? := by
  induction l with
  | nil => simp at h
  | cons c t ih =>
    by_cases hc : p c
    · rw [List.dropWhile_cons, if_pos hc] at h ⊢
      have ht : t ≠ [] := by
        intro he
        rw [he] at h
        simp at h
      rw [ih h, getLast?_cons_of_ne_nil c t ht]
    · rw [List.dropWhile_cons, if_neg hc]

theorem jsTrim_head (l : List Char) : headNotWs (jsTrim l) = true :=
  dropWhile_head_not (trimR l)

theorem jsTrim_last (l : List Char) :
    ∀ c, (jsTrim l).getLast? = some c → jsWs c = false := by
  intro c h
  unfold jsTrim trimL at h
  have hne : (trimR l).dropWhile jsWs ≠ [] := by
    intro he
    rw [he] at h
    simp at h
  rw [getLast?_dropWhile _ _ hne] at h
  unfold trimR at h
  rw [List.getLast?_reverse] at h
  exact head?_not_ws _ (dropWhile_head_not _) c h

theorem spacedOK_tail (c : Char) (t : List Char) (h : spacedOK (c :: t) = true) :
    spacedOK t = true := by
  cases t <;> simp_all [spacedOK]

theorem spacedOK_cons_space (r : List Char) (h1 : spacedOK r = true)
    (h2 : headNotWs r = true) : spacedOK (' ' :: r) = true := by
  cases r <;> simp_all [spacedOK, headNotWs, jsWs]

theorem spacedOK_cons_notWs (c : Char) (r : List Char) (hc : jsWs c = false)
    (h1 : spacedOK r = true) : spacedOK (c :: r) = true := by
  cases r <;> simp_all [spacedOK]

theorem collapseAux_ws_false (c : Char) (t : List Char) (h : jsWs c = true) :
    collapseAux false (c :: t) = ' ' :: collapseAux true t := by
  simp [collapseAux, h]

theorem collapseAux_ws_true (c : Char) (t : List Char) (h : jsWs c = true) :
    collapseAux true (c :: t) = collapseAux true t := by
  simp [collapseAux, h]

theorem collapseAux_notWs (b : Bool) (c : Char) (t : List Char) (h : jsWs c = false) :
    collapseAux b (c :: t) = c :: collapseAux false t := by
  cases b <;> simp [collapseAux, h]

theorem headNotWs_collapse_false (l : List Char) (h : headNotWs l = true) :
    headNotWs (collapseAux false l) = true := by
  cases l with
  | nil => rfl
  | cons c t =>
    simp only [headNotWs, Bool.not_eq_true'] at h
    rw [collapseAux_notWs false c t h]
    simp [headNotWs, h]

theorem collapseAux_props (l : List Char) :
    spacedOK (collapseAux false l) = true ∧ spacedOK (collapseAux true l) = true ∧
    headNotWs (collapseAux true l) = true := by
  induction l with
  | nil => exact ⟨rfl, rfl, rfl⟩
  | cons c t ih =>
    obtain ⟨ih1, ih2, ih3⟩ := ih
    by_cases hc : jsWs c = true
    · refine ⟨?_, ?_, ?_⟩
      · rw [collapseAux_ws_false c t hc]
        exact spacedOK_cons_space _ ih2 ih3
      · rw [collapseAux_ws_true c t hc]
        exact ih2
      · rw [collapseAux_ws_true c t hc]
        exact ih3
    · have hc' : jsWs c = false := by simpa using hc
      refine ⟨?_, ?_, ?_⟩
      · rw [collapseAux_notWs false c t hc']
        exact spacedOK_cons_notWs _ _ hc' ih1
      · rw [collapseAux_notWs true c t hc']
        exact spacedOK_cons_notWs _ _ hc' ih1
      · rw [collapseAux_notWs true c t hc']
        simp [headNotWs, hc']

theorem collapseAux_last (l : List Char) :
    l ≠ [] → (∀ c, l.getLast? = some c → jsWs c = false) →
    ∀ b, collapseAux b l ≠ [] ∧
      ∀ c, (collapseAux b l).getLast? = some c → jsWs c = false := by
  induction l with
  | nil => intro h; exact absurd rfl h
  | cons c t ih =>
    intro _ hlast b
    cases t with
    | nil =>
      have hc : jsWs c = false := hlast c (by simp)
      cases b <;> simp_all [collapseAux]
    | cons d t2 =>
      have hlast' : ∀ x, (d :: t2).getLast? = some x → jsWs x = false := by
        intro x hx
        exact hlast x (by rw [List.getLast?_cons_cons]; exact hx)
      have ihd := ih (by simp) hlast'
      by_cases hc : jsWs c = true
      · cases b
        · have hr := ihd true
          rw [collapseAux_ws_false c (d :: t2) hc]
          refine ⟨by simp, ?_⟩
          intro x hx
          rw [getLast?_cons_of_ne_nil _ _ hr.1] at hx
          exact hr.2 x hx
        · have hr := ihd true
          rw [collapseAux_ws_true c (d :: t2) hc]
          exact hr
      · have hc' : jsWs c = false := by simpa using hc
        have hr := ihd false
        rw [collapseAux_notWs b c (d :: t2) hc']
        refine ⟨by simp, ?_⟩
        intro x hx
        rw [getLast?_cons_of_ne_nil _ _ hr.1] at hx
        exact hr.2 x hx

theorem collapseAux_fix (l : List Char) :
    spacedOK l = true →
    collapseAux false l = l ∧ (headNotWs l = true → collapseAux true l = l) := by
  induction l with
  | nil => intro _; exact ⟨rfl, fun _ => rfl⟩
  | cons c t ih =>
    intro hs
    obtain ⟨ihf, iht⟩ := ih (spacedOK_tail c t hs)
    by_cases hc : jsWs c = true
    · have hcsp : c = ' ' := by
        cases t <;> simp_all [spacedOK]
      have hhead : headNotWs t = true := by
        cases t with
        | nil => rfl
        | cons d t2 => simp_all [spacedOK, headNotWs]
      constructor
      · rw [collapseAux_ws_false c t hc, iht hhead, hcsp]
      · intro hh
        simp [headNotWs, hc] at hh
    · have hc' : jsWs c = false := by simpa using hc
      refine ⟨?_, fun _ => ?_⟩ <;> rw [collapseAux_notWs _ c t hc', ihf]

theorem trimL_eq_self (l : List Char) (h : headNotWs l = true) : trimL l = l := by
  cases l with
  | nil => rfl
  | cons c t =>
    simp only [headNotWs, Bool.not_eq_true'] at h
    simp [trimL, List.dropWhile_cons, h]

theorem trimR_eq_self (l : List Char)
    (h : ∀ c, l.getLast? = some c → jsWs c = false) : trimR l = l := by
  unfold trimR
  cases hr : l.reverse with
  | nil =>
    have hl : l = [] := by
      have := congrArg List.reverse hr
      simpa using this
    simp [hl]
  | cons c t =>
    have hc : jsWs c = false := by
      apply h
      rw [← List.head?_reverse, hr]
      rfl
    rw [List.dropWhile_cons, if_neg (by simp [hc])]
    calc (c :: t).reverse = l.reverse.reverse := by rw [hr]
      _ = l := List.reverse_reverse l

/-- Whitespace normalisation (trim + collapse) is idempotent. -/
theorem normalizeWs_idem (l : List Char) : normalizeWs (normalizeWs l) = normalizeWs l := by
  show collapseAux false (trimL (trimR (collapseAux false (jsTrim l)))) =
    collapseAux false (jsTrim l)
  by_cases hme : jsTrim l = []
  · rw [hme]
    rfl
  · have hcl := collapseAux_last (jsTrim l) hme (jsTrim_last l) false
    rw [trimR_eq_self _ hcl.2,
      trimL_eq_self _ (headNotWs_collapse_false _ (jsTrim_head l))]
    exact (collapseAux_fix _ (collapseAux_props (jsTrim l)).1).1

/-- C8 counterexample — `sanitize('a <b>')` is `'a '` (tag removal leaves a
trailing space the earlier whitespace pass can no longer see), and a second
pass trims it to `'a'`: sanitization is not idempotent as claimed. -/
theorem sanitize_idempotent_c8_counterexample :
    ¬(sanitizeSymptoms (sanitizeSymptoms (cs "a <b>")) = sanitizeSymptoms (cs "a <b>")) := by
  decide

/-- C8 (amended) — Sanitization is idempotent on every input on which the
single pass removes nothing and does not truncate: when the harmful-pattern
removals leave the whitespace-normalised input unchanged and its length is
at most 2000, `sanitize(sanitize(x)) = sanitize(x)`.  (In general a second
pass can differ, because pattern removal can expose new removable content —
see the counterexample.) -/
theorem sanitize_idempotent_c8 (x : List Char)
    (h1 : removeHarmful (normalizeWs x) = normalizeWs x)
    (h2 : (normalizeWs x).length ≤ 2000) :
    sanitizeSymptoms (sanitizeSymptoms x) = sanitizeSymptoms x := by
  have hx : sanitizeSymptoms x = normalizeWs x := by
    simp only [sanitizeSymptoms]
    rw [h1, if_neg (by omega)]
  rw [hx]
  simp only [sanitizeSymptoms]
  rw [normalizeWs_idem, h1, if_neg (by omega)]

theorem sanitize_idempotent_c8_witness :
    removeHarmful (normalizeWs (cs "itchy red patches")) = normalizeWs (cs "itchy red patches") ∧
    sanitizeSymptoms (sanitizeSymptoms (cs "itchy red patches")) =
      sanitizeSymptoms (cs "itchy red patches") :=
  ⟨by decide, sanitize_idempotent_c8 _ (by decide) (by decide)⟩

/-! ## C10 (corrected): the no-symptoms statement is guaranteed only for
locally generated correlation text -/

theorem handleFallback_symptomCorrelation (e : ErrInfo) (input : ConsultationInput) :
    (handleFallback e input).consultation.symptomCorrelation =
      generateSymptomCorrelation input.symptoms input.analysisResult := rfl

theorem processGeminiResponse_symptomCorrelation (resp : GeminiResp)
    (input : ConsultationInput) :
    (processGeminiResponse resp input).consultation.symptomCorrelation =
      (extractSection resp.content (cs "symptom")).getD
        (generateSymptomCorrelation input.symptoms input.analysisResult) := rfl

set_option maxHeartbeats 2000000 in
/-- C10 counterexample — With empty symptoms but a primary-path reply whose
text carries a symptom-correlation section, the returned consultation's
correlation text is the extracted model text, which does not state that no
symptoms were provided: the claim fails on the primary path when extraction
succeeds. -/
theorem no_symptoms_c10_counterexample :
    (mkInput arEczema (cs "") (cs "sid") 0).symptoms = [] ∧
    (generateConsultation cbInit 0 5 arEczema (cs "") (cs "sid")
        (fun _ => Except.ok respSym)).toOption.map
      (fun p => containsSub (cs "No symptoms were provided")
        p.1.consultation.symptomCorrelation) = some false := by
  refine ⟨by decide, by decide⟩

/-- C10 (amended) — For any input with empty or whitespace-only symptoms,
the locally generated symptom correlation states explicitly that no
symptoms were provided: the fallback consultation always does, and a
primary-path consultation does whenever no symptom section could be
extracted from the model reply. -/
theorem no_symptoms_c10 (e : ErrInfo) (input : ConsultationInput)
    (h : (jsTrim input.symptoms).isEmpty = true) :
    containsSub (cs "No symptoms were provided")
      (handleFallback e input).consultation.symptomCorrelation = true ∧
    (∀ resp : GeminiResp,
      extractSection resp.content (cs "symptom") = none →
      containsSub (cs "No symptoms were provided")
        (processGeminiResponse resp input).consultation.symptomCorrelation = true) := by
  have hgen : generateSymptomCorrelation input.symptoms input.analysisResult =
      cs "No symptoms were provided for correlation analysis. Visual analysis was performed based solely on the image." := by
    unfold generateSymptomCorrelation
    simp [h]
  constructor
  · rw [handleFallback_symptomCorrelation, hgen]
    decide
  · intro resp hext
    rw [processGeminiResponse_symptomCorrelation, hext, Option.getD_none, hgen]
    decide

theorem no_symptoms_c10_witness :
    containsSub (cs "No symptoms were provided")
      (handleFallback eNet inpEczema).consultation.symptomCorrelation = true :=
  (no_symptoms_c10 eNet inpEczema (by decide)).1

end BioLens
